import Mathlib

/-!
# Verification of the camera-folder automation scripts

A shallow embedding, in Lean 4, of the behaviourally relevant parts of the
repository (`main.py`, `bot.py`): the filename-match heuristic, the effective
(last-shadowing) per-file processing routine, the time-window fallback, the
chunked download loop with cancellation, and the watcher thread-spawning
handler.  Python strings are modelled as Lean `String`s, Python string
operations are re-implemented below with Python semantics (`str.replace`
replaces all non-overlapping occurrences left to right, `str.split()` splits
on whitespace runs, etc.).  Timestamps are modelled as integer seconds.
All definitions are executable so that concrete inputs can be evaluated.
-/

namespace Photos

/-! ## Python string primitives (on `List Char`) -/

/-- ASCII lower-casing of one character, as Python `str.lower` acts on the
ASCII range (all filenames in scope are ASCII). -/
def lowerChar (c : Char) : Char :=
  if c.toNat ≥ 65 ∧ c.toNat ≤ 90 then Char.ofNat (c.toNat + 32) else c

/-- Python `s.lower()`. -/
def pyLower (s : String) : String := ⟨s.data.map lowerChar⟩

/-- Does `s` start with `pat`? -/
def startsWithCL : List Char → List Char → Bool
  | _, [] => true
  | [], _ :: _ => false
  | c :: cs, p :: ps => c == p && startsWithCL cs ps

/-- Python `pat in s` (contiguous substring check; an empty pattern is always contained). -/
def containsCL (s pat : List Char) : Bool :=
  if startsWithCL s pat then true
  else
    match s with
    | [] => pat.isEmpty
    | _ :: cs => containsCL cs pat

/-- Python `pat in s` on `String`s. -/
def pyContains (s pat : String) : Bool := containsCL s.data pat.data

/-- Python `s.startswith(pat)`. -/
def pyStartsWith (s pat : String) : Bool := startsWithCL s.data pat.data

/-- Python `s.endswith(pat)`. -/
def pyEndsWith (s pat : String) : Bool := startsWithCL s.data.reverse pat.data.reverse

/-- Worker for `replaceCL`, structurally recursive on a fuel argument so
that the kernel can evaluate it; each step consumes at least one character,
so fuel equal to the input length never runs out. -/
def replaceFuel (pat : List Char) : Nat → List Char → List Char
  | 0, s => s
  | _, [] => []
  | fuel + 1, c :: cs =>
    if 0 < pat.length ∧ startsWithCL (c :: cs) pat then
      replaceFuel pat fuel (List.drop (pat.length - 1) cs)
    else c :: replaceFuel pat fuel cs

/-- Python `s.replace(pat, "")` on char lists: every non-overlapping
occurrence of `pat` is removed, scanning left to right.  (An empty pattern is
never used by the code under verification; it is mapped to the identity.) -/
def replaceCL (pat : List Char) (s : List Char) : List Char :=
  replaceFuel pat s.length s

/-- Python `s.replace(pat, "")` on `String`s. -/
def pyReplace (s pat : String) : String := ⟨replaceCL pat.data s.data⟩

/-- The characters that the Python regex class `\s` (and `str.split()` / `str.strip()`) treat as
whitespace, restricted to ASCII. -/
def isSpaceChar (c : Char) : Bool :=
  c == ' ' || c == '\t' || c == '\n' || c == '\r' || c == '\x0b' || c == '\x0c'

/-- Helper for `pySplit`: accumulates the current token (reversed). -/
def splitWSAux : List Char → List Char → List (List Char)
  | [], acc => if acc.isEmpty then [] else [acc.reverse]
  | c :: cs, acc =>
    if isSpaceChar c then
      if acc.isEmpty then splitWSAux cs [] else acc.reverse :: splitWSAux cs []
    else splitWSAux cs (c :: acc)

/-- Python `s.split()` with no argument: split on whitespace runs, dropping
empty tokens. -/
def pySplit (s : String) : List String := (splitWSAux s.data []).map String.mk

/-- Python `s.strip()`. -/
def pyStrip (s : String) : String :=
  ⟨((s.data.dropWhile isSpaceChar).reverse.dropWhile isSpaceChar).reverse⟩

/-- Python `s.isdigit()` on the ASCII range: nonempty and all digits. -/
def pyIsDigit (s : String) : Bool :=
  !s.data.isEmpty && s.data.all (fun c => '0' ≤ c && c ≤ '9')

def isDigitChar (c : Char) : Bool := '0' ≤ c && c ≤ '9'

/-! ## The regex substitutions of `_prepare_search_terms` (main.py 256-277)

Each `re.sub` of a fixed pattern with empty replacement is implemented as a direct
left-to-right scanner with the same semantics: at each position the (greedy)
pattern is tried; on a match the matched characters are dropped and scanning
resumes after them, otherwise one character is kept.  Inputs are already
lower-cased by the caller, so the `re.IGNORECASE` flag is immaterial. -/

/-- `re.sub` removing every four-digit run (pattern `\d{4}`). -/
def removeYear : List Char → List Char
  | a :: b :: c :: d :: rest =>
    if isDigitChar a && isDigitChar b && isDigitChar c && isDigitChar d then
      removeYear rest
    else a :: removeYear (b :: c :: d :: rest)
  | s => s

/-- `re.sub` removing the pattern `s\d{2}` (input lower-cased). -/
def removeSeason : List Char → List Char
  | a :: b :: c :: rest =>
    if a == 's' && isDigitChar b && isDigitChar c then removeSeason rest
    else a :: removeSeason (b :: c :: rest)
  | s => s

/-- Does the list start with four digits followed by `p`? -/
def qualMatch4 : List Char → Bool
  | a :: b :: c :: d :: e :: _ =>
    isDigitChar a && isDigitChar b && isDigitChar c && isDigitChar d && e == 'p'
  | _ => false

/-- Does the list start with three digits followed by `p`? -/
def qualMatch3 : List Char → Bool
  | a :: b :: c :: d :: _ =>
    isDigitChar a && isDigitChar b && isDigitChar c && d == 'p'
  | _ => false

/-- Worker for `removeQuality`, structurally recursive on a fuel argument
(fuel equal to the input length never runs out). -/
def removeQualityFuel : Nat → List Char → List Char
  | 0, s => s
  | _, [] => []
  | fuel + 1, c :: cs =>
    if qualMatch4 (c :: cs) then removeQualityFuel fuel (List.drop 4 cs)
    else if qualMatch3 (c :: cs) then removeQualityFuel fuel (List.drop 3 cs)
    else c :: removeQualityFuel fuel cs

/-- `re.sub` removing the pattern `\d{3,4}p`: the greedy quantifier tries four digits
before three. -/
def removeQuality (s : List Char) : List Char :=
  removeQualityFuel s.length s

/-- The literal patterns removed by `_prepare_search_terms` after the numeric
ones, in source order. -/
def literalPatterns : List String :=
  ["web-dl", "hdtv", "bluray", "hindi", "english", "born again", "daredevil"]

/-- `re.sub` replacing the class `[^\w\s]` by a space: every character that is neither a word
character (alphanumeric or `_`) nor whitespace becomes a space. -/
def nonWordToSpace (s : List Char) : List Char :=
  s.map (fun c => if c.isAlphanum || c == '_' || isSpaceChar c then c else ' ')

/-- `re.sub` replacing each `\s+` run by a space: each maximal whitespace run becomes one space
(a run of `k` whitespace characters contributes its last position as a space). -/
def collapseWS : List Char → List Char
  | [] => []
  | [c] => if isSpaceChar c then [' '] else [c]
  | a :: b :: rest =>
    if isSpaceChar a then
      if isSpaceChar b then collapseWS (b :: rest)
      else ' ' :: collapseWS (b :: rest)
    else a :: collapseWS (b :: rest)

/-- The full simplification chain applied to `clean_name` in
`_prepare_search_terms` (main.py 253-277). -/
def simplifyName (cleanName : String) : String :=
  let afterNums := removeQuality (removeSeason (removeYear cleanName.data))
  let afterLits := literalPatterns.foldl (fun acc p => replaceCL p.data acc) afterNums
  pyStrip ⟨collapseWS (nonWordToSpace afterLits)⟩

/-! ## `_prepare_search_terms` (main.py 244-292) -/

/-- `_prepare_search_terms(base_filename, original_filename)`: builds the list
of search terms.  The Python `list(set(...))` is modelled as `List.dedup`; the
resulting order is unspecified in Python and no verified property below
depends on it (only membership matters). -/
def prepareSearchTerms (baseFilename originalFilename : String) : List String :=
  let terms0 := [pyLower baseFilename, pyReplace (pyLower originalFilename) ".mkv"]
  let simplified := simplifyName (pyLower baseFilename)
  let terms1 := terms0 ++ (if simplified.data.length > 3 then [simplified] else [])
  let words := pySplit (pyReplace (pyLower originalFilename) ".mkv")
  let mainWords := words.filter (fun w => w.data.length > 3 && !pyIsDigit w)
  let terms2 := terms1 ++ mainWords.take 3
  (terms2.filter (fun t => t.data.length > 2)).dedup

/-! ## `_enhanced_filename_match` (main.py 294-333) -/

/-- Which of the four strategies of `_enhanced_filename_match` accepted. -/
inductive MatchKind
  | exact
  | searchTerm
  | word
  | firstPart
  deriving DecidableEq, Repr

/-- `original_filename.lower().replace(".mkv", "")` (main.py 300). -/
def originalCleanOf (originalFilename : String) : String :=
  pyReplace (pyLower originalFilename) ".mkv"

/-- `item_clean = item_filename.lower()` (main.py 297). -/
def itemCleanOf (itemFilename : String) : String := pyLower itemFilename

/-- `item_clean.replace(".mkv", "").replace(".mp4", "").replace(".mov", "")`
(main.py 301). -/
def itemBaseOf (itemFilename : String) : String :=
  pyReplace (pyReplace (pyReplace (pyLower itemFilename) ".mkv") ".mp4") ".mov"

/-- Strategy 2 of `_enhanced_filename_match` (main.py 307-309): some search
term longer than 3 characters occurs in the item name. -/
def termRuleFires (searchTerms : List String) (itemFilename : String) : Bool :=
  searchTerms.any (fun t => t.data.length > 3 && pyContains (itemCleanOf itemFilename) t)

/-- Strategy 3 of `_enhanced_filename_match` (main.py 312-317): the meaningful
words (longer than 3 characters, not purely numeric) of the original name that
also occur among the item words.  Python set semantics via `dedup`. -/
def sharedMeaningfulWords (originalFilename itemFilename : String) : List String :=
  let originalWords := (pySplit (pyReplace (pyLower originalFilename) ".mkv")).dedup
  let itemWords :=
    (pySplit (pyReplace (pyReplace (pyReplace (pyLower itemFilename) ".mkv") ".mp4") ".mov")).dedup
  (originalWords.filter (fun w => w.data.length > 3 && !pyIsDigit w)).filter
    (fun w => itemWords.contains w)

/-- `_enhanced_filename_match(search_terms, item_filename, original_filename)`
(main.py 294-333), applied strategies in order, first hit wins; the exact
reason string is abstracted to the strategy that fired. -/
def enhancedFilenameMatch (searchTerms : List String)
    (itemFilename originalFilename : String) : Option MatchKind :=
  if originalCleanOf originalFilename = itemBaseOf itemFilename then some .exact
  else if termRuleFires searchTerms itemFilename then some .searchTerm
  else if 2 ≤ (sharedMeaningfulWords originalFilename itemFilename).length then some .word
  else
    let oc := originalCleanOf originalFilename
    if 10 < oc.data.length then
      let fp : String := ⟨oc.data.take (min 15 (oc.data.length / 2))⟩
      if pyContains (itemCleanOf itemFilename) fp then some .firstPart else none
    else none

/-- `base_filename = filename.replace(".mkv", "").lower()` as computed by the
effective `_process_file_automatic` (main.py 895): replace before lower. -/
def pipelineBase (filename : String) : String := pyLower (pyReplace filename ".mkv")

/-- The matcher exactly as invoked by the effective pipeline
(main.py 895, 796, 803, 813): search terms from `_prepare_search_terms`, and
the item filename lower-cased before the call. -/
def pipelineMatch (originalFilename itemFilename : String) : Option MatchKind :=
  enhancedFilenameMatch (prepareSearchTerms (pipelineBase originalFilename) originalFilename)
    (pyLower itemFilename) originalFilename

/-- Modelled from the spec: the wording of the spec (for comparison against the code string
handling, which this definition deliberately does not follow): the
"extension-stripped stem" of a filename, i.e. the name with its final
`.extension` suffix removed. -/
def specStem (name : String) : String :=
  if name.data.contains '.' then
    ⟨name.data.take (name.data.length - 1 - name.data.reverse.indexOf '.')⟩
  else name

/-! ## Remote media records and the time-window fallback -/

/-- A remote media record as consumed by main.py: filename, MIME type, and
the parsed creation timestamp (in integer seconds; `none` when the
`creationTime` metadata field is missing or unparseable, in which case the
code skips the record). -/
structure MediaItem where
  filename : String
  mimeType : String
  creation : Option Int
  deriving DecidableEq, Repr

/-- `mime_type.startswith("video/")` (main.py 1392). -/
def isVideo (it : MediaItem) : Bool := pyStartsWith it.mimeType "video/"

/-- The absolute offset, in seconds, between a creation time and the upload
start time: `abs((creation_time - upload_start_time).total_seconds())`. -/
def timeOffset (start t : Int) : Nat := (t - start).natAbs

/-- Stable insertion into a list sorted by `key` (new element goes after
existing elements with the same key). -/
def insertSorted (key : α → Nat) (x : α) : List α → List α
  | [] => [x]
  | y :: ys => if key y ≤ key x then y :: insertSorted key x ys else x :: y :: ys

/-- Helper for `sortByKey`, consuming the input left to right. -/
def sortByKeyAux (key : α → Nat) : List α → List α → List α
  | acc, [] => acc
  | acc, x :: xs => sortByKeyAux key (insertSorted key x acc) xs

/-- A stable ascending sort by `key`, modelling the Python
`candidates.sort(key=lambda x: ...)` (Python sorting is stable, and any two
stable ascending sorts compute the same list). -/
def sortByKey (key : α → Nat) (l : List α) : List α := sortByKeyAux key [] l

/-- The candidate list built by `_find_latest_uploaded_file`
(main.py 1386-1416): video records with a parseable creation time whose
absolute offset from the upload start time is under one hour, paired with
that offset. -/
def windowCandidates (items : List MediaItem) (start : Int) : List (MediaItem × Nat) :=
  items.filterMap (fun it =>
    if isVideo it then
      match it.creation with
      | some t => if timeOffset start t < 3600 then some (it, timeOffset start t) else none
      | none => none
    else none)

/-- `_find_latest_uploaded_file(upload_start_time, original_filename)`
(main.py 1367-1431): `apiAvailable` models `google_photos_service` being
non-`None`, `apiOk` models the list call not raising (a raise is caught at
line 1429 and turned into `None`).  The candidates are sorted by ascending
offset and the first is returned. -/
def findLatestUploadedFile (apiAvailable apiOk : Bool) (items : List MediaItem)
    (start : Int) : Option MediaItem :=
  if !apiAvailable then none
  else if !apiOk then none
  else
    match sortByKey Prod.snd (windowCandidates items start) with
    | [] => none
    | c :: _ => some c.1

/-! ## The effective `_check_latest_10_files` and `_process_file_automatic`

`main.py` defines `_process_file_automatic` three times (lines 96, 493, 892)
and `_check_latest_10_files` three times (lines 182, 452, 778); in Python the
later definition silently replaces the earlier one, so the effective
definitions are the ones at lines 892 and 778.  The method
`_find_any_recent_video` is called (lines 238, 468, 840, 947) but defined
nowhere in the class, so every call raises `AttributeError`. -/

/-- Exceptions distinguished by the model: the `AttributeError` raised by
calling the undefined `_find_any_recent_video`, and a generic error from a
failing Google Photos API call. -/
inductive PyErr
  | attributeError
  | apiError
  deriving DecidableEq, Repr

/-- The names of all methods defined (in source order, shadowed duplicates
included) on the class `AutomaticLatestHandler` in main.py. -/
def handlerMethods : List String :=
  ["__init__", "_setup_google_photos_api", "on_created",
   "_process_file_automatic", "_check_latest_10_files", "_prepare_search_terms",
   "_enhanced_filename_match", "_find_exact_filename_match",
   "_get_match_priority", "_check_latest_10_files",
   "_send_exact_match_notification", "_process_file_automatic",
   "_send_exact_search_notification", "_send_fallback_timing_notification",
   "_send_timing_match_notification", "_smart_auto_match",
   "_check_latest_10_files", "_send_smart_match_notification",
   "_send_immediate_check_notification", "_send_fallback_match_notification",
   "_process_file_automatic", "_send_timing_success_notification",
   "_send_immediate_check_notification", "_check_upload_completion_api",
   "_send_immediate_check_notification", "_send_instant_success_notification",
   "_send_monitoring_fallback_notification", "_monitor_upload_realtime",
   "_monitor_upload_realtime", "_calculate_max_wait_time",
   "_check_upload_completion_api", "_send_realtime_start_notification",
   "_send_progress_update", "_send_quick_detection_notification",
   "_send_timeout_notification", "_calculate_upload_time",
   "_find_latest_uploaded_file", "_create_automatic_share_link",
   "_create_fallback_share_link", "_open_google_photos",
   "_force_stop_google_photos", "_delete_file", "_send_start_notification",
   "_send_progress_notification", "_send_success_notification",
   "_send_partial_success_notification", "_send_not_found_notification",
   "_send_telegram_message"]

/-- A call to `self._find_any_recent_video(...)`: Python looks the attribute
up on the instance and its class; since no method of that name is defined,
the call raises `AttributeError`.  (The `ok` branch is unreachable.) -/
def callFindAnyRecentVideo (_items : List MediaItem) : Except PyErr (Option MediaItem) :=
  if "_find_any_recent_video" ∈ handlerMethods then Except.ok none
  else Except.error PyErr.attributeError

/-- The filename-match loop of the effective `_check_latest_10_files`
(main.py 800-825): the first record that is a video and for which
`_enhanced_filename_match` (fed the lower-cased record filename) returns a
truthy reason. -/
def firstFilenameMatch (items : List MediaItem) (base original : String) : Option MediaItem :=
  items.find? (fun it =>
    isVideo it &&
      (enhancedFilenameMatch (prepareSearchTerms base original) (pyLower it.filename)
        original).isSome)

/-- The effective `_check_latest_10_files(base_filename, original_filename)`
(main.py 778-844).  `apiAvailable` models `google_photos_service` being
non-`None`; `apiOk` models the list call succeeding (an exception anywhere in
the `try` block is caught at line 842 and turned into `None`).  When the loop
finds no filename match the function calls the undefined
`_find_any_recent_video`; the resulting `AttributeError` is swallowed by the
same `except` clause, so the function returns `None`. -/
def checkLatest10Files (apiAvailable apiOk : Bool) (items : List MediaItem)
    (base original : String) : Option MediaItem :=
  if !apiAvailable then none
  else if !apiOk then none
  else
    match firstFilenameMatch items base original with
    | some it => some it
    | none =>
      match callFindAnyRecentVideo items with
      | Except.ok r => r
      | Except.error _ => none

/-- The notification kinds emitted by the effective
`_process_file_automatic` and the helpers it calls (each corresponds to one
`_send_*_notification` method; the message text is abstracted away). -/
inductive NotifKind
  | immediateCheck
  | instantSuccess
  | basicLinkSuccess
  | fallbackMatch
  | timingSuccess
  | monitoringFallback
  | realtimeStart
  | progressUpdate
  | quickDetection
  | success
  | notFound
  | timedOut
  deriving DecidableEq, Repr

/-- The outwardly observable actions of one run of
`_process_file_automatic`: notifications sent, opening and force-stopping
Google Photos, and deleting the local file. -/
inductive Action
  | notif (k : NotifKind)
  | openPhotos
  | forceStop
  | deleteFile
  deriving DecidableEq, Repr

/-- The environment of one run of the effective `_process_file_automatic`:
everything the routine observes from the outside world.  `items1`/`apiOk1`
belong to the list query made inside `_check_latest_10_files` (page size 30,
line 788), `items2`/`apiOk2` to the re-query at line 944 (page size 20), and
`itemsLatest`/`apiOkLatest` to the query inside `_find_latest_uploaded_file`
(page size 50, line 1378).  `monitorDetected` is the eventual outcome of the
`_monitor_upload_realtime` poll loop and `progressTicks` the number of
once-a-minute progress updates it sent before that outcome; `shareLinkOk`
models `_create_automatic_share_link` returning a shareable URL. -/
structure ProcEnv where
  filename : String
  fileExists : Bool
  apiAvailable : Bool
  apiOk1 : Bool
  items1 : List MediaItem
  apiOk2 : Bool
  items2 : List MediaItem
  shareLinkOk : Bool
  monitorDetected : Bool
  progressTicks : Nat
  apiOkLatest : Bool
  itemsLatest : List MediaItem
  startTime : Int
  deriving Repr

/-- The share-link steps common to every success path (for example
main.py 925-932): on success the given success notification is sent, else the
fallback link is used and the partial-success notification is sent. -/
def shareLinkActions (env : ProcEnv) (successKind : NotifKind) : List Action :=
  if env.shareLinkOk then [Action.notif successKind] else [Action.notif NotifKind.basicLinkSuccess]

/-- The `try` block of the effective `_process_file_automatic`
(main.py 892-1012), as the list of actions performed plus `none` for a
normal exit or `some e` for an exception escaping to the handler at
line 1014.  Sleeps, logging, and the message texts are abstracted away;
`_send_*` helpers and `_open_google_photos` swallow their own errors and so
cannot raise. -/
def processBody (env : ProcEnv) : List Action × Option PyErr :=
  -- lines 899-904: wait, then give up silently if the file disappeared
  if !env.fileExists then ([], none)
  else
    -- lines 906-915: start notification, open Google Photos
    let t0 : List Action := [Action.notif NotifKind.immediateCheck, Action.openPhotos]
    -- lines 917-919: filename search over the latest items
    match checkLatest10Files env.apiAvailable env.apiOk1 env.items1
        (pipelineBase env.filename) env.filename with
    | some _ =>
      -- lines 921-938: share link, force stop, delete, return
      (t0 ++ shareLinkActions env NotifKind.instantSuccess
          ++ [Action.forceStop, Action.deleteFile], none)
    | none =>
      -- line 944: unguarded re-query (`service.mediaItems().list(...)`)
      if !env.apiAvailable then (t0, some PyErr.attributeError)
      else if !env.apiOk2 then (t0, some PyErr.apiError)
      else
        -- line 947: call of the undefined `_find_any_recent_video`
        match callFindAnyRecentVideo env.items2 with
        | Except.error e => (t0, some e)
        | Except.ok none =>
          -- lines 983-1012: monitoring branch (unreachable)
          let t1 := t0 ++ [Action.notif NotifKind.monitoringFallback,
                           Action.notif NotifKind.realtimeStart]
                       ++ List.replicate env.progressTicks (Action.notif NotifKind.progressUpdate)
          if env.monitorDetected then
            let t2 := t1 ++ [Action.notif NotifKind.quickDetection]
            match findLatestUploadedFile env.apiAvailable env.apiOkLatest env.itemsLatest
                env.startTime with
            | some _ =>
              (t2 ++ shareLinkActions env NotifKind.success
                  ++ [Action.forceStop, Action.deleteFile], none)
            | none =>
              (t2 ++ [Action.notif NotifKind.notFound, Action.forceStop,
                      Action.deleteFile], none)
          else
            (t1 ++ [Action.notif NotifKind.timedOut, Action.forceStop,
                    Action.deleteFile], none)
        | Except.ok (some _) =>
          -- lines 949-981: timing-match branch (unreachable)
          (t0 ++ [Action.notif NotifKind.fallbackMatch]
              ++ shareLinkActions env NotifKind.timingSuccess
              ++ [Action.forceStop, Action.deleteFile], none)

/-- The effective `_process_file_automatic` (main.py 892-1019): the `try`
body plus the top-level `except` handler at lines 1014-1019, which logs the
error, force-stops Google Photos (inside its own swallowed `try`), and
returns.  The boolean records whether the run ended in that handler. -/
def processFileAutomatic (env : ProcEnv) : List Action × Bool :=
  match processBody env with
  | (tr, none) => (tr, false)
  | (tr, some _) => (tr ++ [Action.forceStop], true)

/-- Is an action a notification? -/
def isNotif : Action → Bool
  | Action.notif _ => true
  | _ => false

/-- A concrete run environment in which the filename search finds nothing:
the file exists, the Google Photos service and both list calls work, and the
remote catalog is empty. -/
def envNoMatch : ProcEnv :=
  { filename := "test.mkv", fileExists := true, apiAvailable := true,
    apiOk1 := true, items1 := [], apiOk2 := true, items2 := [],
    shareLinkOk := false, monitorDetected := false, progressTicks := 0,
    apiOkLatest := true, itemsLatest := [], startTime := 0 }

/-! ## `download_with_progress` (bot.py 95-239) -/

/-- One event observed while iterating `resp.content.iter_chunked(...)`: a
data chunk arriving, or an exception (`asyncio.TimeoutError`,
`aiohttp.ClientError`, or any other `Exception`) raised by the iteration or
the write. -/
inductive StreamItem
  | chunk (data : String)
  | timeoutErr
  | connErr
  | otherErr
  deriving DecidableEq, Repr

/-- The chunk payload, if any. -/
def chunkData : StreamItem → Option String
  | StreamItem.chunk d => some d
  | _ => none

def isChunk (x : StreamItem) : Bool := (chunkData x).isSome

/-- How `download_with_progress` terminates, mirroring the distinct
exception classes of bot.py 196-239: normal completion returns the
destination path; `asyncio.CancelledError`, `asyncio.TimeoutError`,
`aiohttp.ClientError`, and generic `Exception` are re-raised separately. -/
inductive DlOutcome
  | completed
  | cancelledByUser
  | timedOut
  | connFailed
  | otherFailed
  deriving DecidableEq, Repr

/-- The chunked download loop (bot.py 135-189).  `cancel i` is the value of
`active_downloads[download_id]["cancelled"]` observed at the check that
starts iteration `i` (bot.py 138).  The pair returned is the outcome and the
state of the destination file: `some content` for the file containing the
written chunks, `none` for the file having been deleted (bot.py 140-143 and
the `CancelledError` handler at 196-203; the timeout / connection-error /
generic handlers at 204-239 do not delete the partial file). -/
def dlLoop (cancel : Nat → Bool) :
    List StreamItem → Nat → List String → DlOutcome × Option (List String)
  | [], _, content => (DlOutcome.completed, some content)
  | x :: rest, i, content =>
    if cancel i then (DlOutcome.cancelledByUser, none)
    else
      match x with
      | StreamItem.chunk d => dlLoop cancel rest (i + 1) (content ++ [d])
      | StreamItem.timeoutErr => (DlOutcome.timedOut, some content)
      | StreamItem.connErr => (DlOutcome.connFailed, some content)
      | StreamItem.otherErr => (DlOutcome.otherFailed, some content)

/-- The inputs of one `download_with_progress` call that the control flow
depends on.  `status` is `resp.status`; the source never inspects it (no
`raise_for_status`, no status check), which is visible below in that
`downloadWithProgress` does not read the field. -/
structure DlEnv where
  status : Nat
  stream : List StreamItem
  cancel : Nat → Bool

/-- `download_with_progress(url, dest_path, message, context, chat_id)`
(bot.py 95-239), reduced to its observable result: the progress and
keep-alive message edits are best-effort and swallowed (bot.py 161-184), and
the `active_downloads` bookkeeping is not observable from outside. -/
def downloadWithProgress (env : DlEnv) : DlOutcome × Option (List String) :=
  dlLoop env.cancel env.stream 0 []

/-- Maps a mid-stream exception to the outcome with which
`download_with_progress` re-raises it. -/
def errOutcome : StreamItem → DlOutcome
  | StreamItem.chunk _ => DlOutcome.completed
  | StreamItem.timeoutErr => DlOutcome.timedOut
  | StreamItem.connErr => DlOutcome.connFailed
  | StreamItem.otherErr => DlOutcome.otherFailed

/-! ## The watcher handler `on_created` (main.py 85-94) -/

/-- The guard of `on_created`: not a directory, and the path lower-cased
ends with ".mkv".  When it holds, a new daemon thread running
`_process_file_automatic` is started for the file. -/
def onCreatedSpawns (isDirectory : Bool) (srcPath : String) : Bool :=
  !isDirectory && pyEndsWith (pyLower srcPath) ".mkv"

/-- One step of the system around `on_created`: the state is the number of
processing threads currently alive.  A creation event for which the guard
holds starts one more thread (main.py 92-94); other events change nothing; a
thread may finish at any time. -/
inductive SysStep : Nat → Nat → Prop
  | detect {n : Nat} (isDirectory : Bool) (srcPath : String) :
      onCreatedSpawns isDirectory srcPath = true → SysStep n (n + 1)
  | skip {n : Nat} (isDirectory : Bool) (srcPath : String) :
      onCreatedSpawns isDirectory srcPath = false → SysStep n n
  | threadExit {n : Nat} : SysStep (n + 1) n

/-- The states reachable from system start (no processing thread alive). -/
inductive SysReachable : Nat → Prop
  | init : SysReachable 0
  | next {n m : Nat} : SysReachable n → SysStep n m → SysReachable m

/-! ## Helper lemmas -/

/-- No method named `_find_any_recent_video` exists on the handler class, so
every call of it raises `AttributeError`. -/
theorem callFindAnyRecentVideo_raises (items : List MediaItem) :
    callFindAnyRecentVideo items = Except.error PyErr.attributeError := by
  unfold callFindAnyRecentVideo
  rw [if_neg (by decide)]

/-- When the file exists and the filename search comes back empty, the
effective `_process_file_automatic` performs exactly the start notification,
the app launch, and the force-stop of the exception handler, and ends in
that handler. -/
theorem process_no_match_trace (env : ProcEnv)
    (hex : env.fileExists = true)
    (hnm : checkLatest10Files env.apiAvailable env.apiOk1 env.items1
      (pipelineBase env.filename) env.filename = none) :
    processFileAutomatic env =
      ([Action.notif NotifKind.immediateCheck, Action.openPhotos, Action.forceStop], true) := by
  unfold processFileAutomatic processBody
  rw [hex, hnm, callFindAnyRecentVideo_raises]
  cases hav : env.apiAvailable <;> cases hok : env.apiOk2 <;> simp

/-! ## Claim C1 -/

/-- C1 (counterexample): in the concrete environment `envNoMatch` the
companion service never reaches the expected state (no match, no upload
detected), yet the run emits no timed-out notification at all, so the claim
"on upload-wait timeout a timed-out notification is surfaced and the file is
not deleted" is false as stated: its first conjunct fails. -/
theorem c1_upload_timeout_counterexample :
    envNoMatch.fileExists = true ∧
    checkLatest10Files envNoMatch.apiAvailable envNoMatch.apiOk1 envNoMatch.items1
      (pipelineBase envNoMatch.filename) envNoMatch.filename = none ∧
    envNoMatch.monitorDetected = false ∧
    ¬ (Action.notif NotifKind.timedOut ∈ (processFileAutomatic envNoMatch).1 ∧
       Action.deleteFile ∉ (processFileAutomatic envNoMatch).1) := by
  decide

/-- C1 (amended): in every run in which the upload wait would time out (the
file exists, the filename search finds nothing, and monitoring would never
detect the upload), the effective routine never reaches the upload-wait
phase: the preceding timing fallback calls the undefined
`_find_any_recent_video`, the error is caught by the top-level handler, no
timed-out notification is surfaced, and the local file is not deleted. -/
theorem c1_upload_timeout_amended (env : ProcEnv)
    (hex : env.fileExists = true)
    (hnm : checkLatest10Files env.apiAvailable env.apiOk1 env.items1
      (pipelineBase env.filename) env.filename = none)
    (_hmon : env.monitorDetected = false) :
    Action.notif NotifKind.timedOut ∉ (processFileAutomatic env).1 ∧
    Action.deleteFile ∉ (processFileAutomatic env).1 ∧
    (processFileAutomatic env).2 = true := by
  rw [process_no_match_trace env hex hnm]
  decide

/-- C1 (witness): the amended theorem applied to the concrete environment
`envNoMatch`. -/
theorem c1_upload_timeout_amended_witness :
    Action.notif NotifKind.timedOut ∉ (processFileAutomatic envNoMatch).1 ∧
    Action.deleteFile ∉ (processFileAutomatic envNoMatch).1 ∧
    (processFileAutomatic envNoMatch).2 = true :=
  c1_upload_timeout_amended envNoMatch (by decide) (by decide) (by decide)

/-! ## Claim C2 -/

/-- C2 (counterexample): in the concrete environment `envNoMatch` the body of
the per-file routine raises, the exception is caught at the top, but the
handler emits no notification whatsoever (the actions it appends contain no
notification), so "every failure is converted into a notification" is false
as stated. -/
theorem c2_failure_notification_counterexample :
    (processBody envNoMatch).2 = some PyErr.attributeError ∧
    ((processFileAutomatic envNoMatch).1.drop
        (processBody envNoMatch).1.length).all (fun a => !isNotif a) = true := by
  decide

/-- C2 (amended): every failure raised during per-file processing is caught
at the top of the routine and logged, Google Photos is force-stopped, and the
run returns normally (the processing thread never crashes) — but no
notification about the failure is emitted: the handler appends exactly the
force-stop action and nothing else. -/
theorem c2_failure_swallowed (env : ProcEnv) (tr : List Action) (e : PyErr)
    (h : processBody env = (tr, some e)) :
    processFileAutomatic env = (tr ++ [Action.forceStop], true) := by
  unfold processFileAutomatic
  rw [h]

/-- C2 (witness): the amended theorem applied to the concrete environment
`envNoMatch`, in which the body raises `AttributeError`. -/
theorem c2_failure_swallowed_witness :
    processFileAutomatic envNoMatch =
      ([Action.notif NotifKind.immediateCheck, Action.openPhotos] ++ [Action.forceStop], true) :=
  c2_failure_swallowed envNoMatch
    [Action.notif NotifKind.immediateCheck, Action.openPhotos]
    PyErr.attributeError (by decide)

/-! ## Claim C3 -/

/-- C3: the handler class never defines `_find_any_recent_video`, so every
call of it raises `AttributeError`; consequently, in the effective (last)
definitions, whenever the filename loop finds no match,
`_check_latest_10_files` returns `None` (the error of its fallback call is
swallowed by its own `except` clause), and `_process_file_automatic` exits
via its top-level exception handler — emitting no further notification and
not deleting the local file (its full action trace is the start
notification, the app launch, and the final force-stop). -/
theorem c3_undefined_fallback_method :
    ("_find_any_recent_video" ∉ handlerMethods) ∧
    (∀ items : List MediaItem,
      callFindAnyRecentVideo items = Except.error PyErr.attributeError) ∧
    (∀ (apiAvailable apiOk : Bool) (items : List MediaItem) (base original : String),
      firstFilenameMatch items base original = none →
      checkLatest10Files apiAvailable apiOk items base original = none) ∧
    (∀ env : ProcEnv, env.fileExists = true →
      checkLatest10Files env.apiAvailable env.apiOk1 env.items1
        (pipelineBase env.filename) env.filename = none →
      processFileAutomatic env =
        ([Action.notif NotifKind.immediateCheck, Action.openPhotos, Action.forceStop], true)) := by
  refine ⟨by decide, callFindAnyRecentVideo_raises, ?_, process_no_match_trace⟩
  intro apiAvailable apiOk items base original h
  unfold checkLatest10Files
  rw [h, callFindAnyRecentVideo_raises]
  cases apiAvailable <;> cases apiOk <;> simp

/-- C3 (witness): the conjuncts of the theorem applied at concrete inputs. -/
theorem c3_undefined_fallback_method_witness :
    callFindAnyRecentVideo [] = Except.error PyErr.attributeError ∧
    checkLatest10Files true true [] (pipelineBase "test.mkv") "test.mkv" = none ∧
    processFileAutomatic envNoMatch =
      ([Action.notif NotifKind.immediateCheck, Action.openPhotos, Action.forceStop], true) :=
  ⟨c3_undefined_fallback_method.2.1 [],
   c3_undefined_fallback_method.2.2.1 true true [] (pipelineBase "test.mkv") "test.mkv" (by decide),
   c3_undefined_fallback_method.2.2.2 envNoMatch (by decide) (by decide)⟩

/-! ## Claim C4 -/

/-- C4 (counterexample): two refutations at explicit inputs.  The local name
"AB.MKV" and remote name "ab.avi" have equal extension-stripped stems up to
case ("ab"), yet the pipeline matcher accepts nothing (in particular not via
the exact rule), because the code strips only the literal substrings ".mkv"
(from the local name) and ".mkv"/".mp4"/".mov" (from the remote name) rather
than the extension.  And the claimed scenario pair — local
"movie.2024.1080p.mkv" against remote "movie 2024 1080p.mkv" — is not
accepted either: no dot-to-space stem normalization exists in the code. -/
theorem c4_exact_rule_counterexample :
    pyLower (specStem "AB.MKV") = pyLower (specStem "ab.avi") ∧
    pipelineMatch "AB.MKV" "ab.avi" = none ∧
    pipelineMatch "movie.2024.1080p.mkv" "movie 2024 1080p.mkv" = none := by
  decide

/-- C4 (amended): the exact rule of `_enhanced_filename_match` compares the
lower-cased local name with every ".mkv" occurrence removed against the
lower-cased remote name with every ".mkv", ".mp4" and ".mov" occurrence
removed, as raw strings; whenever those two strings are equal the matcher
accepts via the exact rule (for any search-term list). -/
theorem c4_exact_rule_amended (searchTerms : List String)
    (originalFilename itemFilename : String)
    (h : originalCleanOf originalFilename = itemBaseOf itemFilename) :
    enhancedFilenameMatch searchTerms itemFilename originalFilename = some MatchKind.exact := by
  unfold enhancedFilenameMatch
  rw [if_pos h]

/-- C4 (witness): the amended theorem applied to the pair "hello.mkv" /
"hello.mp4". -/
theorem c4_exact_rule_amended_witness :
    originalCleanOf "hello.mkv" = itemBaseOf "hello.mp4" ∧
    enhancedFilenameMatch [] "hello.mp4" "hello.mkv" = some MatchKind.exact :=
  ⟨by decide, c4_exact_rule_amended [] "hello.mkv" "hello.mp4" (by decide)⟩

/-! ## Claim C5 -/

/-- The first search term built by `_prepare_search_terms` is the lower-cased
base filename; it survives the length filter whenever it is longer than two
characters. -/
theorem lowerBase_mem_prepareSearchTerms (b o : String)
    (h : 2 < (pyLower b).data.length) :
    pyLower b ∈ prepareSearchTerms b o := by
  unfold prepareSearchTerms
  refine List.mem_dedup.mpr (List.mem_filter.mpr ⟨?_, ?_⟩)
  · exact List.mem_append_left _ (List.mem_append_left _ (List.mem_cons_self _ _))
  · simpa using h

/-- C5 (counterexample): at the explicit input pair "abcd.mkv" / "ab.mp4" the
extension-stripped remote stem "ab" is a substring of the local stem "abcd"
and the exact rule did not accept, yet the pipeline matcher accepts nothing:
substring containment in the remote-contained-in-local direction is not
implemented by the effective matcher. -/
theorem c5_substring_rule_counterexample :
    pyContains (pyLower (specStem "abcd.mkv")) (pyLower (specStem "ab.mp4")) = true ∧
    originalCleanOf "abcd.mkv" ≠ itemBaseOf (pyLower "ab.mp4") ∧
    pipelineMatch "abcd.mkv" "ab.mp4" = none := by
  decide

/-- C5 (amended): the effective matcher checks substring containment only in
the direction local-to-remote: when the lower-cased, ".mkv"-stripped local
name is longer than three characters and occurs as a substring of the
lower-cased remote name, and the exact rule did not accept, the pipeline
accepts via the search-term rule.  (The reverse direction is not checked, as
the counterexample shows.) -/
theorem c5_substring_rule_amended (originalFilename itemFilename : String)
    (hne : originalCleanOf originalFilename ≠ itemBaseOf (pyLower itemFilename))
    (hlen : 3 < (pyLower (pipelineBase originalFilename)).data.length)
    (hsub : pyContains (itemCleanOf (pyLower itemFilename))
      (pyLower (pipelineBase originalFilename)) = true) :
    pipelineMatch originalFilename itemFilename = some MatchKind.searchTerm := by
  have hmem := lowerBase_mem_prepareSearchTerms (pipelineBase originalFilename)
    originalFilename (by omega)
  have ht : termRuleFires
      (prepareSearchTerms (pipelineBase originalFilename) originalFilename)
      (pyLower itemFilename) = true := by
    unfold termRuleFires
    rw [List.any_eq_true]
    refine ⟨pyLower (pipelineBase originalFilename), hmem, ?_⟩
    rw [Bool.and_eq_true]
    exact ⟨decide_eq_true hlen, hsub⟩
  unfold pipelineMatch enhancedFilenameMatch
  rw [if_neg hne, if_pos ht]

/-- C5 (witness): the amended theorem applied to the pair "abcd.mkv" /
"abcde.mp4" (local stem "abcd" contained in remote stem "abcde"). -/
theorem c5_substring_rule_amended_witness :
    pipelineMatch "abcd.mkv" "abcde.mp4" = some MatchKind.searchTerm :=
  c5_substring_rule_amended "abcd.mkv" "abcde.mp4" (by decide) (by decide) (by decide)

/-! ## Claim C6 -/

/-- C6 (counterexample): at the explicit input pair of two equal names
"hello world.mkv" the two names share two meaningful tokens, but the matcher
accepts via the exact rule, not via the word-overlap rule — the rules are
applied in order with first hit wins, so sharing two meaningful tokens does
not by itself make the acceptance a word-overlap acceptance. -/
theorem c6_word_rule_counterexample :
    2 ≤ (sharedMeaningfulWords "hello world.mkv" (pyLower "hello world.mkv")).length ∧
    pipelineMatch "hello world.mkv" "hello world.mkv" = some MatchKind.exact := by
  decide

/-- C6 (amended): whenever the local and remote names share at least two
meaningful tokens (longer than three characters, not purely numeric, token
sets computed exactly as the code does), the pipeline matcher accepts; the
acceptance is via the word-overlap rule precisely when neither the exact
rule nor the search-term rule fired first. -/
theorem c6_word_rule_amended (originalFilename itemFilename : String)
    (hsh : 2 ≤ (sharedMeaningfulWords originalFilename (pyLower itemFilename)).length) :
    (pipelineMatch originalFilename itemFilename).isSome = true ∧
    (originalCleanOf originalFilename ≠ itemBaseOf (pyLower itemFilename) →
      termRuleFires (prepareSearchTerms (pipelineBase originalFilename) originalFilename)
        (pyLower itemFilename) = false →
      pipelineMatch originalFilename itemFilename = some MatchKind.word) := by
  unfold pipelineMatch enhancedFilenameMatch
  by_cases hex : originalCleanOf originalFilename = itemBaseOf (pyLower itemFilename)
  · rw [if_pos hex]
    exact ⟨rfl, fun hne _ => absurd hex hne⟩
  · rw [if_neg hex]
    by_cases ht : termRuleFires
        (prepareSearchTerms (pipelineBase originalFilename) originalFilename)
        (pyLower itemFilename) = true
    · rw [if_pos ht]
      refine ⟨rfl, fun _ hf => ?_⟩
      rw [ht] at hf
      cases hf
    · rw [if_neg ht, if_pos hsh]
      exact ⟨rfl, fun _ _ => rfl⟩

/-- C6 (witness): the amended theorem applied to the pair
"aaaa bbbb cccc dddd eeee.mkv" / "dddd eeee.mp4", which shares the two
meaningful tokens "dddd" and "eeee" while no earlier rule fires. -/
theorem c6_word_rule_amended_witness :
    (pipelineMatch "aaaa bbbb cccc dddd eeee.mkv" "dddd eeee.mp4").isSome = true ∧
    pipelineMatch "aaaa bbbb cccc dddd eeee.mkv" "dddd eeee.mp4" = some MatchKind.word :=
  ⟨(c6_word_rule_amended "aaaa bbbb cccc dddd eeee.mkv" "dddd eeee.mp4" (by decide)).1,
   (c6_word_rule_amended "aaaa bbbb cccc dddd eeee.mkv" "dddd eeee.mp4" (by decide)).2
     (by decide) (by decide)⟩

/-! ## Claim C7 -/

/-- Membership in a stable insertion. -/
theorem mem_insertSorted {key : α → Nat} {x a : α} {l : List α} :
    a ∈ insertSorted key x l ↔ a = x ∨ a ∈ l := by
  induction l with
  | nil => simp [insertSorted]
  | cons y ys ih =>
    unfold insertSorted
    split
    · rw [List.mem_cons, ih, List.mem_cons]
      tauto
    · simp

/-- Membership through the sorting worker. -/
theorem mem_sortByKeyAux {key : α → Nat} {a : α} :
    ∀ {l acc : List α}, a ∈ sortByKeyAux key acc l ↔ a ∈ acc ∨ a ∈ l := by
  intro l
  induction l with
  | nil => intro acc; simp [sortByKeyAux]
  | cons x xs ih =>
    intro acc
    unfold sortByKeyAux
    rw [ih, mem_insertSorted, List.mem_cons]
    tauto

/-- Membership in the sorted list. -/
theorem mem_sortByKey {key : α → Nat} {a : α} {l : List α} :
    a ∈ sortByKey key l ↔ a ∈ l := by
  unfold sortByKey
  rw [mem_sortByKeyAux]
  simp

/-- Stable insertion preserves sortedness by the key. -/
theorem pairwise_insertSorted {key : α → Nat} {x : α} {l : List α}
    (h : l.Pairwise (fun a b => key a ≤ key b)) :
    (insertSorted key x l).Pairwise (fun a b => key a ≤ key b) := by
  induction l with
  | nil => simp [insertSorted]
  | cons y ys ih =>
    rcases List.pairwise_cons.mp h with ⟨hy, hys⟩
    unfold insertSorted
    split
    · next hle =>
      refine List.pairwise_cons.mpr ⟨?_, ih hys⟩
      intro b hb
      rcases mem_insertSorted.mp hb with rfl | hb
      · exact hle
      · exact hy b hb
    · next hgt =>
      refine List.pairwise_cons.mpr ⟨?_, h⟩
      intro b hb
      rcases List.mem_cons.mp hb with rfl | hb
      · omega
      · exact le_trans (by omega) (hy b hb)

/-- The sorting worker yields a sorted list when the accumulator is sorted. -/
theorem pairwise_sortByKeyAux {key : α → Nat} :
    ∀ {l acc : List α}, acc.Pairwise (fun a b => key a ≤ key b) →
      (sortByKeyAux key acc l).Pairwise (fun a b => key a ≤ key b) := by
  intro l
  induction l with
  | nil => intro acc h; exact h
  | cons x xs ih =>
    intro acc h
    exact ih (pairwise_insertSorted h)

/-- The head of the sorted list has the minimal key among all elements. -/
theorem sortByKey_head_min {key : α → Nat} {l : List α} {c : α} {rest : List α}
    (h : sortByKey key l = c :: rest) : ∀ b ∈ l, key c ≤ key b := by
  intro b hb
  have hp : (sortByKey key l).Pairwise (fun a b => key a ≤ key b) :=
    pairwise_sortByKeyAux List.Pairwise.nil
  rw [h] at hp
  have hbs : b ∈ c :: rest := by
    rw [← h, mem_sortByKey]; exact hb
  rcases List.mem_cons.mp hbs with rfl | hbs
  · exact le_refl _
  · exact (List.pairwise_cons.mp hp).1 b hbs

/-- Unpacking a membership in the windowed candidate list. -/
theorem of_mem_windowCandidates {c : MediaItem × Nat} {items : List MediaItem} {start : Int}
    (h : c ∈ windowCandidates items start) :
    c.1 ∈ items ∧ isVideo c.1 = true ∧
      ∃ t : Int, c.1.creation = some t ∧ timeOffset start t < 3600 ∧
        c.2 = timeOffset start t := by
  unfold windowCandidates at h
  obtain ⟨a, ha, hfa⟩ := List.mem_filterMap.mp h
  by_cases hv : isVideo a = true
  · rw [if_pos hv] at hfa
    cases hc : a.creation with
    | none => rw [hc] at hfa; cases hfa
    | some t =>
      rw [hc] at hfa
      by_cases hw : timeOffset start t < 3600
      · simp only [hw, if_true] at hfa
        cases hfa
        exact ⟨ha, hv, t, hc, hw, rfl⟩
      · simp only [hw, if_false] at hfa
        cases hfa
  · rw [if_neg hv] at hfa; cases hfa

/-- Building a membership in the windowed candidate list. -/
theorem mem_windowCandidates_of {it : MediaItem} {t : Int} {items : List MediaItem}
    {start : Int} (hmem : it ∈ items) (hv : isVideo it = true)
    (hc : it.creation = some t) (hw : timeOffset start t < 3600) :
    (it, timeOffset start t) ∈ windowCandidates items start := by
  unfold windowCandidates
  refine List.mem_filterMap.mpr ⟨it, hmem, ?_⟩
  rw [if_pos hv, hc]
  simp [hw]

/-- C7: the time-window fallback `_find_latest_uploaded_file` never selects
a record whose creation timestamp is outside the one-hour window around the
queue time, and among in-window video records (with a parseable timestamp)
it always selects one with the minimum absolute time offset; moreover when
the service is available, the list call succeeds, and some in-window video
record exists, it does select one. -/
theorem c7_time_window_fallback (apiAvailable apiOk : Bool) (items : List MediaItem)
    (start : Int) :
    (∀ it : MediaItem, findLatestUploadedFile apiAvailable apiOk items start = some it →
      it ∈ items ∧ isVideo it = true ∧
        ∃ t : Int, it.creation = some t ∧ timeOffset start t < 3600 ∧
          ∀ it' ∈ items, isVideo it' = true →
            ∀ t' : Int, it'.creation = some t' → timeOffset start t' < 3600 →
              timeOffset start t ≤ timeOffset start t') ∧
    (apiAvailable = true → apiOk = true →
      (∃ it' ∈ items, isVideo it' = true ∧
        ∃ t' : Int, it'.creation = some t' ∧ timeOffset start t' < 3600) →
      (findLatestUploadedFile apiAvailable apiOk items start).isSome = true) := by
  constructor
  · intro it h
    unfold findLatestUploadedFile at h
    cases apiAvailable with
    | false => simp at h
    | true =>
      cases apiOk with
      | false => simp at h
      | true =>
        simp only [Bool.not_true, Bool.false_eq_true, if_false] at h
        cases hs : sortByKey Prod.snd (windowCandidates items start) with
        | nil => rw [hs] at h; cases h
        | cons cand restCands =>
          rw [hs] at h
          cases h
          have hmemc : cand ∈ windowCandidates items start := by
            rw [← @mem_sortByKey _ Prod.snd _ _, hs]
            exact List.mem_cons_self _ _
          obtain ⟨hin, hv, t, hc, hw, hsnd⟩ := of_mem_windowCandidates hmemc
          refine ⟨hin, hv, t, hc, hw, ?_⟩
          intro it' hin' hv' t' hc' hw'
          have hmem' : (it', timeOffset start t') ∈ windowCandidates items start :=
            mem_windowCandidates_of hin' hv' hc' hw'
          have := sortByKey_head_min hs _ hmem'
          simpa [← hsnd] using this
  · rintro rfl rfl ⟨it', hin', hv', t', hc', hw'⟩
    unfold findLatestUploadedFile
    simp only [Bool.not_true, Bool.false_eq_true, if_false]
    have hmem' : (it', timeOffset start t') ∈ windowCandidates items start :=
      mem_windowCandidates_of hin' hv' hc' hw'
    cases hs : sortByKey Prod.snd (windowCandidates items start) with
    | nil =>
      rw [← @mem_sortByKey _ Prod.snd _ _, hs] at hmem'
      cases hmem'
    | cons cand restCands => simp

/-- C7 (witness): the theorem applied to a concrete catalog.  Records at
offsets 3000 and 100 are in the window, a non-video and an out-of-window
video are present, and the fallback picks the offset-100 record. -/
theorem c7_time_window_fallback_witness :
    (findLatestUploadedFile true true
        [⟨"a.mp4", "video/mp4", some 3000⟩, ⟨"b.mp4", "video/mp4", some 100⟩,
         ⟨"c.jpg", "image/jpeg", some 1⟩, ⟨"d.mp4", "video/mp4", some 4000⟩] 0).isSome = true ∧
    ((⟨"b.mp4", "video/mp4", some 100⟩ : MediaItem) ∈
        [⟨"a.mp4", "video/mp4", some 3000⟩, ⟨"b.mp4", "video/mp4", some 100⟩,
         ⟨"c.jpg", "image/jpeg", some 1⟩, ⟨"d.mp4", "video/mp4", some 4000⟩] ∧
      isVideo ⟨"b.mp4", "video/mp4", some 100⟩ = true ∧
      ∃ t : Int, (⟨"b.mp4", "video/mp4", some 100⟩ : MediaItem).creation = some t ∧
        timeOffset 0 t < 3600 ∧
        ∀ it' ∈ [⟨"a.mp4", "video/mp4", some 3000⟩, ⟨"b.mp4", "video/mp4", some 100⟩,
                 ⟨"c.jpg", "image/jpeg", some 1⟩, ⟨"d.mp4", "video/mp4", some 4000⟩],
          isVideo it' = true → ∀ t' : Int, it'.creation = some t' →
            timeOffset 0 t' < 3600 → timeOffset 0 t ≤ timeOffset 0 t') :=
  ⟨(c7_time_window_fallback true true
      [⟨"a.mp4", "video/mp4", some 3000⟩, ⟨"b.mp4", "video/mp4", some 100⟩,
       ⟨"c.jpg", "image/jpeg", some 1⟩, ⟨"d.mp4", "video/mp4", some 4000⟩] 0).2
      rfl rfl ⟨⟨"b.mp4", "video/mp4", some 100⟩, by decide, by decide, 100, rfl, by decide⟩,
   (c7_time_window_fallback true true
      [⟨"a.mp4", "video/mp4", some 3000⟩, ⟨"b.mp4", "video/mp4", some 100⟩,
       ⟨"c.jpg", "image/jpeg", some 1⟩, ⟨"d.mp4", "video/mp4", some 4000⟩] 0).1
      ⟨"b.mp4", "video/mp4", some 100⟩ (by decide)⟩

/-! ## Claim C8 -/

/-- C8 (counterexample): at an explicit input with HTTP status 404 and an
error page as the response body, the download loop writes the error body to
the destination file and completes as a success — the non-200 status is
never checked, so the claim is false as stated. -/
theorem c8_error_abort_counterexample :
    (404 : Nat) ≠ 200 ∧
    downloadWithProgress ⟨404, [StreamItem.chunk "error page body"], fun _ => false⟩ =
      (DlOutcome.completed, some ["error page body"]) := by
  refine ⟨by decide, ?_⟩
  rfl

/-- One unfolding step of the download loop on a nonempty stream. -/
theorem dlLoop_cons (cancel : Nat → Bool) (x : StreamItem) (rest : List StreamItem)
    (i : Nat) (content : List String) :
    dlLoop cancel (x :: rest) i content =
      if cancel i then (DlOutcome.cancelledByUser, none)
      else
        match x with
        | StreamItem.chunk d => dlLoop cancel rest (i + 1) (content ++ [d])
        | StreamItem.timeoutErr => (DlOutcome.timedOut, some content)
        | StreamItem.connErr => (DlOutcome.connFailed, some content)
        | StreamItem.otherErr => (DlOutcome.otherFailed, some content) := by
  rfl

/-- Running the download loop over well-received chunks up to a mid-stream
exception, with no cancellation request observed, yields the tagged outcome
of that exception and leaves the partial content on disk. -/
theorem dlLoop_err (cancel : Nat → Bool) (e : StreamItem) (rest : List StreamItem)
    (he : isChunk e = false) :
    ∀ (pre : List StreamItem) (k : Nat) (content : List String),
      (∀ x ∈ pre, isChunk x = true) →
      (∀ j, j ≤ pre.length → cancel (k + j) = false) →
      dlLoop cancel (pre ++ e :: rest) k content =
        (errOutcome e, some (content ++ pre.filterMap chunkData)) := by
  intro pre
  induction pre with
  | nil =>
    intro k content _ hcancel
    have hck : cancel k = false := by simpa using hcancel 0 (by omega)
    rw [List.nil_append, dlLoop_cons, if_neg (by simp [hck])]
    cases e with
    | chunk d => simp [isChunk, chunkData] at he
    | timeoutErr => simp [errOutcome]
    | connErr => simp [errOutcome]
    | otherErr => simp [errOutcome]
  | cons x pre ih =>
    intro k content hpre hcancel
    have hx : isChunk x = true := hpre x (List.mem_cons_self _ _)
    obtain ⟨d, rfl⟩ : ∃ d, x = StreamItem.chunk d := by
      cases x <;> simp_all [isChunk, chunkData]
    have hck : cancel k = false := by simpa using hcancel 0 (by omega)
    rw [List.cons_append, dlLoop_cons, if_neg (by simp [hck])]
    have := ih (k + 1) (content ++ [d])
      (fun y hy => hpre y (List.mem_cons_of_mem _ hy))
      (fun j hj => by
        have harith : k + 1 + j = k + (j + 1) := by omega
        rw [harith]
        exact hcancel (j + 1) (by simpa using Nat.succ_le_succ hj))
    simpa [List.filterMap, chunkData] using this

/-- C8 (amended): a timeout or connection error (or any other exception)
during the body iteration aborts the download and propagates with its own
tag, leaving the partial content (the chunks received so far) in the
destination file; but a non-200 HTTP status is never detected — the status
field is not inspected at all, the error body is streamed to the destination
and the call returns success, as the counterexample shows. -/
theorem c8_error_abort_amended (status : Nat) (cancel : Nat → Bool)
    (pre rest : List StreamItem) (e : StreamItem)
    (he : e = StreamItem.timeoutErr ∨ e = StreamItem.connErr)
    (hpre : ∀ x ∈ pre, isChunk x = true)
    (hcancel : ∀ j, j ≤ pre.length → cancel j = false) :
    downloadWithProgress ⟨status, pre ++ e :: rest, cancel⟩ =
      (errOutcome e, some (pre.filterMap chunkData)) := by
  have hchunk : isChunk e = false := by
    rcases he with rfl | rfl <;> rfl
  unfold downloadWithProgress
  have := dlLoop_err cancel e rest hchunk pre 0 [] hpre (by simpa using hcancel)
  simpa using this

/-- C8 (witness): the amended theorem applied to a stream of one chunk
followed by a timeout. -/
theorem c8_error_abort_amended_witness :
    downloadWithProgress ⟨500, [StreamItem.chunk "a", StreamItem.timeoutErr],
        fun _ => false⟩ =
      (errOutcome StreamItem.timeoutErr,
        some ([StreamItem.chunk "a"].filterMap chunkData)) :=
  c8_error_abort_amended 500 (fun _ => false) [StreamItem.chunk "a"] []
    StreamItem.timeoutErr (Or.inl rfl) (by decide) (fun _ _ => rfl)

/-! ## Claim C9 -/

/-- Reaching a cancellation flag set at position `i`, after chunks only,
cancels the download and deletes the partial file. -/
theorem dlLoop_cancel (cancel : Nat → Bool) :
    ∀ (s : List StreamItem) (k i : Nat) (content : List String),
      i < s.length → (∀ x ∈ s.take i, isChunk x = true) → cancel (k + i) = true →
      dlLoop cancel s k content = (DlOutcome.cancelledByUser, none) := by
  intro s
  induction s with
  | nil =>
    intro k i content hi
    simp at hi
  | cons x rest ih =>
    intro k i content hi htake hcan
    by_cases hck : cancel k = true
    · rw [dlLoop_cons, if_pos hck]
    · cases i with
      | zero =>
        rw [Nat.add_zero] at hcan
        exact absurd hcan hck
      | succ m =>
        have hx : isChunk x = true := htake x (by simp [List.take])
        obtain ⟨d, rfl⟩ : ∃ d, x = StreamItem.chunk d := by
          cases x <;> simp_all [isChunk, chunkData]
        rw [dlLoop_cons, if_neg hck]
        apply ih (k + 1) m (content ++ [d])
        · simpa using hi
        · intro y hy
          exact htake y (by simp [List.take, hy])
        · have : k + 1 + m = k + (m + 1) := by omega
          rw [this]
          exact hcan
/-- C9: cancellation is observed at the per-chunk check of the download
loop; whenever the cancellation flag is set at a reached iteration (all
earlier stream events being ordinary chunks), the partial destination file
is deleted and the cancellation outcome is raised, and that outcome is
distinct from every ordinary failure outcome (timeout, connection error,
other error). -/
theorem c9_cancellation_cleanup (env : DlEnv) (i : Nat)
    (hi : i < env.stream.length)
    (hchunks : ∀ x ∈ env.stream.take i, isChunk x = true)
    (hreq : env.cancel i = true) :
    downloadWithProgress env = (DlOutcome.cancelledByUser, none) ∧
    DlOutcome.cancelledByUser ≠ DlOutcome.timedOut ∧
    DlOutcome.cancelledByUser ≠ DlOutcome.connFailed ∧
    DlOutcome.cancelledByUser ≠ DlOutcome.otherFailed := by
  refine ⟨?_, by decide, by decide, by decide⟩
  unfold downloadWithProgress
  exact dlLoop_cancel env.cancel env.stream 0 i [] hi hchunks (by simpa using hreq)

/-- C9 (witness): the theorem applied to a two-chunk stream whose
cancellation flag is set at the second chunk. -/
theorem c9_cancellation_cleanup_witness :
    downloadWithProgress ⟨200, [StreamItem.chunk "a", StreamItem.chunk "b"],
        fun j => j == 1⟩ = (DlOutcome.cancelledByUser, none) :=
  (c9_cancellation_cleanup
    ⟨200, [StreamItem.chunk "a", StreamItem.chunk "b"], fun j => j == 1⟩
    1 (by decide) (by decide) (by decide)).1

/-! ## Claim C10 -/

/-- C10 (counterexample): the claim "in every reachable state at most one
file is actively processed" is false: `on_created` starts a fresh daemon
thread per detected file, so two creation events with no completion in
between reach a state with two concurrently live processing threads. -/
theorem c10_single_worker_counterexample :
    ¬ (∀ n : Nat, SysReachable n → n ≤ 1) := by
  intro h
  have h2 : SysReachable 2 :=
    SysReachable.next
      (SysReachable.next SysReachable.init
        (SysStep.detect false "a.mkv" (by decide)))
      (SysStep.detect false "b.mkv" (by decide))
  exact absurd (h 2 h2) (by decide)

/-- C10 (amended): each detected `.mkv` creation event spawns its own
processing thread and nothing serializes them — for every `k`, the state
with `k` concurrently live processing threads is reachable (by `k`
detections in quick succession with no completions in between). -/
theorem c10_thread_per_file_amended : ∀ k : Nat, SysReachable k := by
  intro k
  induction k with
  | zero => exact SysReachable.init
  | succ n ih =>
    exact SysReachable.next ih (SysStep.detect false "a.mkv" (by decide))

end Photos
